import Mathlib

/-!
Verification of the OAuth token lifecycle of a small CRM-integration HTTP
server (`app.py`).  The Python code is shallowly embedded: JSON objects
whose relevant values are strings become association lists, the token file
becomes an explicit `Option Dict` state (`none` = file absent), the
outbound HTTP responses become explicit parameters, and each route handler
becomes a pure function from those inputs to a result structure recording
the response body shape, the HTTP status, the resulting file state and
whether the provider's token endpoint was contacted.
-/

namespace ZohoCRM

/-- A JSON object with string values, as an association list (Python dicts
are key-ordered; parsed JSON has unique keys). -/
abbrev Dict := List (String × String)

/-- `d.get(k)` of Python: the value at the first occurrence of key `k`,
or `none`. -/
def dget (d : Dict) (k : String) : Option String :=
  (d.find? (fun p => p.1 == k)).map (fun p => p.2)

/-- `k in d` of Python. -/
def dcontains (d : Dict) (k : String) : Bool :=
  d.any (fun p => p.1 == k)

/-- `d[k] = v` of Python: replace the value at an existing key in place,
otherwise append the binding. -/
def dset (d : Dict) (k : String) (v : String) : Dict :=
  match d with
  | [] => [(k, v)]
  | (k', v') :: rest => if k' == k then (k, v) :: rest else (k', v') :: dset rest k v

/-- Python truthiness of an optional string: `None` and `""` are falsy. -/
def truthy : Option String → Bool
  | none => false
  | some s => !(s == "")

/-- The token file: `none` when `tokens.json` does not exist, otherwise the
JSON object it holds. -/
abbrev TokenFile := Option Dict

/-- `save_tokens(data)`: write the record, overwriting any prior content. -/
def save_tokens (data : Dict) : TokenFile := some data

/-- `load_tokens()`: the stored record, or `{}` when the file is absent. -/
def load_tokens (st : TokenFile) : Dict := st.getD []

/-- Error message of the `AuthRequired` failure in `refresh_access_token`. -/
def no_refresh_token_msg : String :=
  "No refresh token found. Please authenticate via /auth first."

/-- Generic failure message of `refresh_access_token` when the provider
response carries no `error` field. -/
def refresh_failed_msg : String := "Failed to refresh access token."

/-- Outcome of `refresh_access_token`: the `(token, err)` pair the Python
function returns, the token-file state after the call, and whether the
provider's token endpoint was contacted. -/
structure RefreshResult where
  access_token : Option String
  err : Option String
  store : TokenFile
  contacted : Bool
deriving Repr, DecidableEq

/-- `refresh_access_token()` of `app.py`.  `refresh_data` is the JSON body
the provider would answer to the token-exchange POST (only consulted when
the POST actually happens). -/
def refresh_access_token (st : TokenFile) (refresh_data : Dict) : RefreshResult :=
  let token_store := load_tokens st
  let refresh_token := dget token_store "refresh_token"
  if !truthy refresh_token then
    { access_token := none, err := some no_refresh_token_msg, store := st, contacted := false }
  else if !dcontains refresh_data "access_token" || !dcontains refresh_data "api_domain" then
    { access_token := none,
      err := some ((dget refresh_data "error").getD refresh_failed_msg),
      store := st, contacted := true }
  else
    let ts1 := dset token_store "access_token" ((dget refresh_data "access_token").getD "")
    let ts2 := dset ts1 "api_domain" ((dget refresh_data "api_domain").getD "")
    { access_token := dget refresh_data "access_token", err := none,
      store := save_tokens ts2, contacted := true }

/-- Shape of the JSON body `/callback` answers with. -/
inductive CallbackBody where
  | missingCode
  | incomplete (auth_data : Dict)
  | success (auth_data : Dict)
deriving Repr, DecidableEq

/-- Outcome of the `/callback` route: response body shape, HTTP status,
token-file state after the call, and whether the provider's token endpoint
was contacted. -/
structure CallbackResult where
  body : CallbackBody
  status : Nat
  store : TokenFile
  contacted : Bool
deriving Repr, DecidableEq

/-- The `/callback` route of `app.py`.  `code` is `request.args.get("code")`
and `auth_data` is the JSON body the provider would answer to the
authorization-code exchange POST. -/
def callback (st : TokenFile) (code : Option String) (auth_data : Dict) : CallbackResult :=
  if !truthy code then
    { body := .missingCode, status := 400, store := st, contacted := false }
  else
    let refresh_token := dget auth_data "refresh_token"
    let access_token := dget auth_data "access_token"
    let api_domain := dget auth_data "api_domain"
    if !truthy refresh_token || !truthy access_token || !truthy api_domain then
      { body := .incomplete auth_data, status := 400, store := st, contacted := true }
    else
      let token_store : Dict :=
        [("refresh_token", refresh_token.getD ""),
         ("access_token", access_token.getD ""),
         ("api_domain", api_domain.getD "")]
      { body := .success auth_data, status := 200,
        store := save_tokens token_store, contacted := true }

/-- One entry of the provider's `fields` collection (the source only reads
its `api_name`). -/
structure Field where
  api_name : String
deriving Repr, DecidableEq

/-- An outbound HTTP response as the source consumes it: status code and
raw body text. -/
structure HttpResp where
  status_code : Nat
  text : String
deriving Repr, DecidableEq

/-- Error message of `get_module_fields` when the body has no `fields`
collection. -/
def no_fields_msg : String := "No fields info found"

/-- `get_module_fields` of `app.py`.  `resp` is the provider's response to
the field-metadata GET; `fieldsData` is the `fields` collection of its JSON
body (`none` when the key is absent).  Returns the `(field_names, err)`
pair of the Python function. -/
def get_module_fields (resp : HttpResp) (fieldsData : Option (List Field)) :
    Option (List String) × Option String :=
  if resp.status_code ≠ 200 then (none, some resp.text)
  else
    match fieldsData with
    | none => (none, some no_fields_msg)
    | some fields => (some (fields.map Field.api_name), none)

/-- Shape of the JSON body a resource handler answers with. -/
inductive HandlerBody where
  | authError (msg : String)
  | apiDomainMissing
  | fieldsError (details : String)
  | providerError (error : String) (details : String) (status_code : Nat)
  | listOk (payload : String)
  | createOk (zoho_response : String)
deriving Repr, DecidableEq

/-- Outcome of a resource handler: response body shape, HTTP status and
token-file state after the call. -/
structure HandlerResult where
  body : HandlerBody
  status : Nat
  store : TokenFile
deriving Repr, DecidableEq

def fetch_customers_failed_msg : String := "Failed to fetch customers"
def fetch_orders_failed_msg : String := "Failed to fetch orders"
def create_customer_failed_msg : String := "Failed to create customer"
def create_order_failed_msg : String := "Failed to create order"

/-- The `/customers` route of `app.py`.  `refresh_data` feeds the refresh,
`fieldsResp`/`fieldsData` the schema fetch, `finalResp` the list GET. -/
def get_customers (st : TokenFile) (refresh_data : Dict)
    (fieldsResp : HttpResp) (fieldsData : Option (List Field))
    (finalResp : HttpResp) : HandlerResult :=
  let r := refresh_access_token st refresh_data
  if truthy r.err then
    { body := .authError (r.err.getD ""), status := 401, store := r.store }
  else
    let token_store := load_tokens r.store
    let api_domain := dget token_store "api_domain"
    if !truthy api_domain then
      { body := .apiDomainMissing, status := 401, store := r.store }
    else
      let fe := get_module_fields fieldsResp fieldsData
      if truthy fe.2 then
        { body := .fieldsError (fe.2.getD ""), status := 500, store := r.store }
      else if finalResp.status_code ≠ 200 then
        { body := .providerError fetch_customers_failed_msg finalResp.text finalResp.status_code,
          status := finalResp.status_code, store := r.store }
      else
        { body := .listOk finalResp.text, status := 200, store := r.store }

/-- The `/orders` route of `app.py` (same shape as `/customers`, module
`Cart_Orders`). -/
def get_orders (st : TokenFile) (refresh_data : Dict)
    (fieldsResp : HttpResp) (fieldsData : Option (List Field))
    (finalResp : HttpResp) : HandlerResult :=
  let r := refresh_access_token st refresh_data
  if truthy r.err then
    { body := .authError (r.err.getD ""), status := 401, store := r.store }
  else
    let token_store := load_tokens r.store
    let api_domain := dget token_store "api_domain"
    if !truthy api_domain then
      { body := .apiDomainMissing, status := 401, store := r.store }
    else
      let fe := get_module_fields fieldsResp fieldsData
      if truthy fe.2 then
        { body := .fieldsError (fe.2.getD ""), status := 500, store := r.store }
      else if finalResp.status_code ≠ 200 then
        { body := .providerError fetch_orders_failed_msg finalResp.text finalResp.status_code,
          status := finalResp.status_code, store := r.store }
      else
        { body := .listOk finalResp.text, status := 200, store := r.store }

/-- The `/create_customer` route of `app.py`.  `finalResp` is the
provider's response to the create POST. -/
def create_customer (st : TokenFile) (refresh_data : Dict)
    (finalResp : HttpResp) : HandlerResult :=
  let r := refresh_access_token st refresh_data
  if truthy r.err then
    { body := .authError (r.err.getD ""), status := 401, store := r.store }
  else
    let token_store := load_tokens r.store
    let api_domain := dget token_store "api_domain"
    if !truthy api_domain then
      { body := .apiDomainMissing, status := 401, store := r.store }
    else if finalResp.status_code ≠ 200 ∧ finalResp.status_code ≠ 201 then
      { body := .providerError create_customer_failed_msg finalResp.text finalResp.status_code,
        status := finalResp.status_code, store := r.store }
    else
      { body := .createOk finalResp.text, status := 200, store := r.store }

/-- The `/create_order` route of `app.py` (same shape as
`/create_customer`, module `Cart_Orders`). -/
def create_order (st : TokenFile) (refresh_data : Dict)
    (finalResp : HttpResp) : HandlerResult :=
  let r := refresh_access_token st refresh_data
  if truthy r.err then
    { body := .authError (r.err.getD ""), status := 401, store := r.store }
  else
    let token_store := load_tokens r.store
    let api_domain := dget token_store "api_domain"
    if !truthy api_domain then
      { body := .apiDomainMissing, status := 401, store := r.store }
    else if finalResp.status_code ≠ 200 ∧ finalResp.status_code ≠ 201 then
      { body := .providerError create_order_failed_msg finalResp.text finalResp.status_code,
        status := finalResp.status_code, store := r.store }
    else
      { body := .createOk finalResp.text, status := 200, store := r.store }

/-! ### Association-list lemmas -/

theorem dget_dset_self (d : Dict) (k v : String) : dget (dset d k v) k = some v := by
  induction d with
  | nil => simp [dset, dget, List.find?]
  | cons p rest ih =>
    obtain ⟨k', v'⟩ := p
    by_cases h : k' = k
    · simp [dset, dget, List.find?, h]
    · have hb : (k' == k) = false := by simpa using h
      simp only [dset, hb, if_false]
      simpa [dget, List.find?, hb] using ih

theorem dget_dset_ne (d : Dict) (k k' v : String) (h : k' ≠ k) :
    dget (dset d k v) k' = dget d k' := by
  induction d with
  | nil =>
    have hb : (k == k') = false := by simpa using (Ne.symm h)
    simp [dset, dget, List.find?, hb]
  | cons p rest ih =>
    obtain ⟨k1, v1⟩ := p
    by_cases h1 : k1 = k
    · have hb : (k == k') = false := by simpa using (Ne.symm h)
      have hb1 : (k1 == k') = false := by simpa [h1] using (Ne.symm h)
      simp [dset, dget, List.find?, h1, hb, hb1]
    · have hb1 : (k1 == k) = false := by simpa using h1
      by_cases h2 : k1 = k'
      · have hb2 : (k1 == k') = true := by simpa using h2
        simp only [dset, hb1, if_false]
        simp [dget, List.find?, hb2]
      · have hb2 : (k1 == k') = false := by simpa using h2
        simp only [dset, hb1, if_false]
        simpa [dget, List.find?, hb2] using ih

theorem dcontains_of_dget_some (d : Dict) (k v : String) (h : dget d k = some v) :
    dcontains d k = true := by
  induction d with
  | nil => simp [dget, List.find?] at h
  | cons p rest ih =>
    obtain ⟨k1, v1⟩ := p
    by_cases h1 : k1 = k
    · simp [dcontains, h1]
    · have hb : (k1 == k) = false := by simpa using h1
      simp only [dget, List.find?, hb] at h
      have := ih h
      simpa [dcontains, hb] using this

/-! ### Characterization of a successful refresh -/

/-- When `refresh_access_token` reports no error, it took the success
branch: it returned the provider's access token and saved the loaded
record updated with the provider's `access_token` and `api_domain`. -/
theorem refresh_err_none_spec (st : TokenFile) (rd : Dict)
    (h : (refresh_access_token st rd).err = none) :
    (refresh_access_token st rd).access_token = dget rd "access_token" ∧
    (refresh_access_token st rd).store =
      some (dset (dset (load_tokens st) "access_token" ((dget rd "access_token").getD ""))
        "api_domain" ((dget rd "api_domain").getD "")) := by
  unfold refresh_access_token at *
  by_cases h1 : truthy (dget (load_tokens st) "refresh_token") = true
  · by_cases h2 : (!dcontains rd "access_token" || !dcontains rd "api_domain") = true
    · simp [h1, h2] at h
    · simp [h1, h2, save_tokens]
  · simp [h1] at h

/-- The token-file state after `refresh_access_token`: either untouched
(failure branches) or the loaded record with the two provider fields set. -/
theorem refresh_store_cases (st : TokenFile) (rd : Dict) :
    (refresh_access_token st rd).store = st ∨
    (refresh_access_token st rd).store =
      some (dset (dset (load_tokens st) "access_token" ((dget rd "access_token").getD ""))
        "api_domain" ((dget rd "api_domain").getD "")) := by
  unfold refresh_access_token
  by_cases h1 : truthy (dget (load_tokens st) "refresh_token") = true
  · by_cases h2 : (!dcontains rd "access_token" || !dcontains rd "api_domain") = true
    · left; simp [h1, h2]
    · right; simp [h1, h2, save_tokens]
  · left; simp [h1]

/-- `refresh_access_token` never changes the stored `refresh_token`. -/
theorem refresh_preserves_refresh_token (st : TokenFile) (rd : Dict) :
    dget (load_tokens (refresh_access_token st rd).store) "refresh_token" =
      dget (load_tokens st) "refresh_token" := by
  rcases refresh_store_cases st rd with h | h
  · rw [h]
  · rw [h]
    show dget (dset (dset (load_tokens st) "access_token" _) "api_domain" _) "refresh_token" = _
    rw [dget_dset_ne _ _ _ _ (by decide), dget_dset_ne _ _ _ _ (by decide)]

/-- Every branch of `get_customers` keeps the token-file state produced by
the initial refresh. -/
theorem get_customers_store (st : TokenFile) (rd : Dict) (a : HttpResp)
    (b : Option (List Field)) (c : HttpResp) :
    (get_customers st rd a b c).store = (refresh_access_token st rd).store := by
  unfold get_customers
  dsimp only
  split_ifs <;> rfl

/-- Every branch of `get_orders` keeps the token-file state produced by
the initial refresh. -/
theorem get_orders_store (st : TokenFile) (rd : Dict) (a : HttpResp)
    (b : Option (List Field)) (c : HttpResp) :
    (get_orders st rd a b c).store = (refresh_access_token st rd).store := by
  unfold get_orders
  dsimp only
  split_ifs <;> rfl

/-- Every branch of `create_customer` keeps the token-file state produced
by the initial refresh. -/
theorem create_customer_store (st : TokenFile) (rd : Dict) (c : HttpResp) :
    (create_customer st rd c).store = (refresh_access_token st rd).store := by
  unfold create_customer
  dsimp only
  split_ifs <;> rfl

/-- Every branch of `create_order` keeps the token-file state produced by
the initial refresh. -/
theorem create_order_store (st : TokenFile) (rd : Dict) (c : HttpResp) :
    (create_order st rd c).store = (refresh_access_token st rd).store := by
  unfold create_order
  dsimp only
  split_ifs <;> rfl

/-! ### Claims -/

/-- C1: for every provider response to the refresh token-exchange missing
`access_token` or `api_domain` (or both), `refresh_access_token` fails —
it returns no token, its error is the provider-supplied `error` message
when present and the generic failure message otherwise — and the persisted
token record is left unmodified. -/
theorem refresh_missing_field_fails (st : TokenFile) (rd : Dict)
    (hrt : truthy (dget (load_tokens st) "refresh_token") = true)
    (hmiss : dcontains rd "access_token" = false ∨ dcontains rd "api_domain" = false) :
    (refresh_access_token st rd).access_token = none ∧
    (∀ e, dget rd "error" = some e → (refresh_access_token st rd).err = some e) ∧
    (dget rd "error" = none → (refresh_access_token st rd).err = some refresh_failed_msg) ∧
    (refresh_access_token st rd).store = st := by
  have h2 : (!dcontains rd "access_token" || !dcontains rd "api_domain") = true := by
    rcases hmiss with h | h <;> simp [h]
  unfold refresh_access_token
  refine ⟨by simp [hrt, h2], ?_, ?_, by simp [hrt, h2]⟩
  · intro e he
    simp [hrt, h2, he]
  · intro he
    simp [hrt, h2, he]

theorem refresh_missing_field_fails_witness :
    (truthy (dget (load_tokens (some [("refresh_token", "R")])) "refresh_token") = true ∧
      dcontains [("api_domain", "D")] "access_token" = false) ∧
    (refresh_access_token (some [("refresh_token", "R")]) [("api_domain", "D")]).access_token
        = none ∧
    (∀ e, dget [("api_domain", "D")] "error" = some e →
      (refresh_access_token (some [("refresh_token", "R")]) [("api_domain", "D")]).err = some e) ∧
    (dget [("api_domain", "D")] "error" = none →
      (refresh_access_token (some [("refresh_token", "R")]) [("api_domain", "D")]).err =
        some refresh_failed_msg) ∧
    (refresh_access_token (some [("refresh_token", "R")]) [("api_domain", "D")]).store =
      some [("refresh_token", "R")] :=
  ⟨⟨by decide, by decide⟩,
    refresh_missing_field_fails (some [("refresh_token", "R")]) [("api_domain", "D")]
      (by decide) (Or.inl (by decide))⟩

/-- C2: once a `refresh_token` is stored it is never overwritten except by
a new successful authorization-code exchange: the refresh and every
resource handler leave the stored `refresh_token` unchanged, and the
callback either leaves the file untouched or is a successful exchange. -/
theorem refresh_token_overwrite_invariant (st : TokenFile) (rd : Dict)
    (code : Option String) (ad : Dict) (fieldsResp : HttpResp)
    (fieldsData : Option (List Field)) (finalResp : HttpResp) :
    dget (load_tokens (refresh_access_token st rd).store) "refresh_token" =
      dget (load_tokens st) "refresh_token" ∧
    dget (load_tokens (get_customers st rd fieldsResp fieldsData finalResp).store)
      "refresh_token" = dget (load_tokens st) "refresh_token" ∧
    dget (load_tokens (get_orders st rd fieldsResp fieldsData finalResp).store)
      "refresh_token" = dget (load_tokens st) "refresh_token" ∧
    dget (load_tokens (create_customer st rd finalResp).store) "refresh_token" =
      dget (load_tokens st) "refresh_token" ∧
    dget (load_tokens (create_order st rd finalResp).store) "refresh_token" =
      dget (load_tokens st) "refresh_token" ∧
    ((callback st code ad).store = st ∨ (callback st code ad).body = .success ad) := by
  refine ⟨refresh_preserves_refresh_token st rd, ?_, ?_, ?_, ?_, ?_⟩
  · rw [get_customers_store]; exact refresh_preserves_refresh_token st rd
  · rw [get_orders_store]; exact refresh_preserves_refresh_token st rd
  · rw [create_customer_store]; exact refresh_preserves_refresh_token st rd
  · rw [create_order_store]; exact refresh_preserves_refresh_token st rd
  · unfold callback
    by_cases h1 : truthy code = true
    · by_cases h2 : (!truthy (dget ad "refresh_token") || !truthy (dget ad "access_token")
          || !truthy (dget ad "api_domain")) = true
      · left; simp [h1, h2]
      · right; simp [h1, h2]
    · left; simp [h1]

/-- C3: with a stored refresh token, a provider refresh response carrying
`access_token = T` and `api_domain = D` makes `refresh_access_token`
return `T`, and the stored record afterwards holds `access_token = T`,
`api_domain = D` and an unchanged `refresh_token`. -/
theorem refresh_success_scenario (st : TokenFile) (rd : Dict) (T D : String)
    (hrt : truthy (dget (load_tokens st) "refresh_token") = true)
    (hT : dget rd "access_token" = some T)
    (hD : dget rd "api_domain" = some D) :
    (refresh_access_token st rd).access_token = some T ∧
    (refresh_access_token st rd).err = none ∧
    dget (load_tokens (refresh_access_token st rd).store) "access_token" = some T ∧
    dget (load_tokens (refresh_access_token st rd).store) "api_domain" = some D ∧
    dget (load_tokens (refresh_access_token st rd).store) "refresh_token" =
      dget (load_tokens st) "refresh_token" := by
  have hca := dcontains_of_dget_some _ _ _ hT
  have hcd := dcontains_of_dget_some _ _ _ hD
  have herr : (refresh_access_token st rd).err = none := by
    unfold refresh_access_token
    simp [hrt, hca, hcd]
  obtain ⟨hacc, hst⟩ := refresh_err_none_spec st rd herr
  refine ⟨by rw [hacc, hT], herr, ?_, ?_, refresh_preserves_refresh_token st rd⟩
  · rw [hst]
    show dget (dset (dset (load_tokens st) "access_token" ((dget rd "access_token").getD ""))
      "api_domain" ((dget rd "api_domain").getD "")) "access_token" = some T
    rw [dget_dset_ne _ _ _ _ (by decide), hT, dget_dset_self]
    rfl
  · rw [hst]
    show dget (dset (dset (load_tokens st) "access_token" ((dget rd "access_token").getD ""))
      "api_domain" ((dget rd "api_domain").getD "")) "api_domain" = some D
    rw [hD, dget_dset_self]
    rfl

theorem refresh_success_scenario_witness :
    (truthy (dget (load_tokens (some [("refresh_token", "R")])) "refresh_token") = true ∧
      dget [("access_token", "T"), ("api_domain", "D")] "access_token" = some "T" ∧
      dget [("access_token", "T"), ("api_domain", "D")] "api_domain" = some "D") ∧
    (refresh_access_token (some [("refresh_token", "R")])
        [("access_token", "T"), ("api_domain", "D")]).access_token = some "T" ∧
    (refresh_access_token (some [("refresh_token", "R")])
        [("access_token", "T"), ("api_domain", "D")]).err = none ∧
    dget (load_tokens (refresh_access_token (some [("refresh_token", "R")])
        [("access_token", "T"), ("api_domain", "D")]).store) "access_token" = some "T" ∧
    dget (load_tokens (refresh_access_token (some [("refresh_token", "R")])
        [("access_token", "T"), ("api_domain", "D")]).store) "api_domain" = some "D" ∧
    dget (load_tokens (refresh_access_token (some [("refresh_token", "R")])
        [("access_token", "T"), ("api_domain", "D")]).store) "refresh_token" =
      dget (load_tokens (some [("refresh_token", "R")])) "refresh_token" :=
  ⟨⟨by decide, by decide, by decide⟩,
    refresh_success_scenario (some [("refresh_token", "R")])
      [("access_token", "T"), ("api_domain", "D")] "T" "D" (by decide) (by decide) (by decide)⟩

/-- C5: for every missing or malformed (empty — the only local notion of
well-formedness the code has) authorization code, the callback answers the
missing-code error with HTTP 400, does not contact the provider's token
endpoint, and leaves the stored record untouched. -/
theorem callback_missing_code (st : TokenFile) (code : Option String) (ad : Dict)
    (h : truthy code = false) :
    callback st code ad =
      { body := .missingCode, status := 400, store := st, contacted := false } := by
  unfold callback
  simp [h]

theorem callback_missing_code_witness :
    truthy (some "") = false ∧
    callback (some [("refresh_token", "R")]) (some "") [("access_token", "A")] =
      { body := .missingCode, status := 400, store := some [("refresh_token", "R")],
        contacted := false } :=
  ⟨by decide, callback_missing_code (some [("refresh_token", "R")]) (some "")
    [("access_token", "A")] (by decide)⟩

/-- C6: with an empty token store (no file saved yet), the refresh fails
with the auth-required error and never contacts the provider. -/
theorem refresh_empty_store_auth_required (rd : Dict) :
    refresh_access_token none rd =
      { access_token := none, err := some no_refresh_token_msg, store := none,
        contacted := false } := rfl

/-- C7: `save_tokens` followed by `load_tokens` yields the saved record,
and loading twice with no intervening save yields identical records. -/
theorem save_load_round_trip (d : Dict) (st : TokenFile) :
    load_tokens (save_tokens d) = d ∧ load_tokens st = load_tokens st :=
  ⟨rfl, rfl⟩

/-- C8: on every HTTP-200 response of the field-metadata query, a body
without a `fields` collection fails with the no-fields message, and
otherwise `get_module_fields` returns exactly the `api_name` of each entry
of the collection, in provider order. -/
theorem list_fields_http_200 (text : String) (fs : List Field) :
    get_module_fields { status_code := 200, text := text } none =
      (none, some no_fields_msg) ∧
    get_module_fields { status_code := 200, text := text } (some fs) =
      (some (fs.map Field.api_name), none) :=
  ⟨rfl, rfl⟩

/-- C4 counterexample: a provider response in which all three of
`refresh_token`, `access_token`, `api_domain` are present, yet the
callback does not persist a new record — it answers the incomplete-response
error with HTTP 400 — because the present `refresh_token` is the empty
string and the code tests truthiness, not presence. -/
theorem callback_present_but_empty_not_persisted :
    dcontains [("refresh_token", ""), ("access_token", "A"), ("api_domain", "D")]
      "refresh_token" = true ∧
    dcontains [("refresh_token", ""), ("access_token", "A"), ("api_domain", "D")]
      "access_token" = true ∧
    dcontains [("refresh_token", ""), ("access_token", "A"), ("api_domain", "D")]
      "api_domain" = true ∧
    callback none (some "xyz")
        [("refresh_token", ""), ("access_token", "A"), ("api_domain", "D")] =
      { body := .incomplete [("refresh_token", ""), ("access_token", "A"), ("api_domain", "D")],
        status := 400, store := none, contacted := true } := by
  refine ⟨by decide, by decide, by decide, ?_⟩
  rfl

/-- C4 (amended): with a non-empty code, a provider response in which any
of `refresh_token`, `access_token`, `api_domain` is absent or empty makes
the callback fail with the incomplete-response error carrying the raw
provider response, persisting nothing; when all three are present and
non-empty, the callback persists exactly those three fields as a new
record (full overwrite). -/
theorem callback_complete_response (st : TokenFile) (code : Option String) (ad : Dict)
    (hc : truthy code = true) :
    ((truthy (dget ad "refresh_token") && truthy (dget ad "access_token") &&
        truthy (dget ad "api_domain")) = false →
      callback st code ad =
        { body := .incomplete ad, status := 400, store := st, contacted := true }) ∧
    (∀ rt ac ap, dget ad "refresh_token" = some rt → dget ad "access_token" = some ac →
      dget ad "api_domain" = some ap → rt ≠ "" → ac ≠ "" → ap ≠ "" →
      callback st code ad =
        { body := .success ad, status := 200,
          store := some [("refresh_token", rt), ("access_token", ac), ("api_domain", ap)],
          contacted := true }) := by
  constructor
  · intro hfail
    have h2 : (!truthy (dget ad "refresh_token") || !truthy (dget ad "access_token")
        || !truthy (dget ad "api_domain")) = true := by
      rcases Bool.and_eq_false_iff.mp hfail with h | h
      · rcases Bool.and_eq_false_iff.mp h with h1 | h1 <;> simp [h1]
      · simp [h]
    unfold callback
    simp [hc, h2]
  · intro rt ac ap hrt hac hap h1 h2 h3
    have t1 : truthy (dget ad "refresh_token") = true := by
      rw [hrt]; simpa [truthy] using h1
    have t2 : truthy (dget ad "access_token") = true := by
      rw [hac]; simpa [truthy] using h2
    have t3 : truthy (dget ad "api_domain") = true := by
      rw [hap]; simpa [truthy] using h3
    have s1 : truthy (some rt) = true := by simpa [truthy] using h1
    have s2 : truthy (some ac) = true := by simpa [truthy] using h2
    have s3 : truthy (some ap) = true := by simpa [truthy] using h3
    unfold callback
    simp [hc, t1, t2, t3, hrt, hac, hap, s1, s2, s3, save_tokens]

theorem callback_complete_response_witness :
    truthy (some "xyz") = true ∧
    ((truthy (dget ([] : Dict) "refresh_token") && truthy (dget ([] : Dict) "access_token") &&
        truthy (dget ([] : Dict) "api_domain")) = false →
      callback none (some "xyz") [] =
        { body := .incomplete [], status := 400, store := none, contacted := true }) ∧
    (∀ rt ac ap, dget ([] : Dict) "refresh_token" = some rt →
      dget ([] : Dict) "access_token" = some ac →
      dget ([] : Dict) "api_domain" = some ap → rt ≠ "" → ac ≠ "" → ap ≠ "" →
      callback none (some "xyz") [] =
        { body := .success [], status := 200,
          store := some [("refresh_token", rt), ("access_token", ac), ("api_domain", ap)],
          contacted := true }) :=
  ⟨by decide, callback_complete_response none (some "xyz") [] (by decide)⟩

/-- C9: in each of the four resource handlers, when the refresh succeeds,
the loaded api domain is set and the schema fetch (for the list handlers)
reports no error, a non-2xx provider response to the final create/list
request is surfaced with the provider's own status code and its body text
echoed as the details of the error body. -/
theorem provider_error_passthrough (st : TokenFile) (rd : Dict)
    (fieldsResp : HttpResp) (fieldsData : Option (List Field)) (finalResp : HttpResp)
    (hre : truthy (refresh_access_token st rd).err = false)
    (hdom : truthy (dget (load_tokens (refresh_access_token st rd).store) "api_domain") = true)
    (hf : truthy (get_module_fields fieldsResp fieldsData).2 = false)
    (hs : finalResp.status_code < 200 ∨ 300 ≤ finalResp.status_code) :
    get_customers st rd fieldsResp fieldsData finalResp =
      { body := .providerError fetch_customers_failed_msg finalResp.text finalResp.status_code,
        status := finalResp.status_code, store := (refresh_access_token st rd).store } ∧
    get_orders st rd fieldsResp fieldsData finalResp =
      { body := .providerError fetch_orders_failed_msg finalResp.text finalResp.status_code,
        status := finalResp.status_code, store := (refresh_access_token st rd).store } ∧
    create_customer st rd finalResp =
      { body := .providerError create_customer_failed_msg finalResp.text finalResp.status_code,
        status := finalResp.status_code, store := (refresh_access_token st rd).store } ∧
    create_order st rd finalResp =
      { body := .providerError create_order_failed_msg finalResp.text finalResp.status_code,
        status := finalResp.status_code, store := (refresh_access_token st rd).store } := by
  have h200 : finalResp.status_code ≠ 200 := by rcases hs with h | h <;> omega
  have h201 : finalResp.status_code ≠ 201 := by rcases hs with h | h <;> omega
  unfold get_customers get_orders create_customer create_order
  refine ⟨?_, ?_, ?_, ?_⟩ <;> simp [hre, hdom, hf, h200, h201]

theorem provider_error_passthrough_witness :
    (truthy (refresh_access_token (some [("refresh_token", "R")])
        [("access_token", "T"), ("api_domain", "U")]).err = false ∧
      truthy (dget (load_tokens (refresh_access_token (some [("refresh_token", "R")])
        [("access_token", "T"), ("api_domain", "U")]).store) "api_domain") = true ∧
      truthy (get_module_fields { status_code := 200, text := "b" }
        (some [{ api_name := "Name" }])).2 = false ∧
      ((403 : Nat) < 200 ∨ (300 : Nat) ≤ 403)) ∧
    get_customers (some [("refresh_token", "R")]) [("access_token", "T"), ("api_domain", "U")]
        { status_code := 200, text := "b" } (some [{ api_name := "Name" }])
        { status_code := 403, text := "denied" } =
      { body := .providerError fetch_customers_failed_msg "denied" 403, status := 403,
        store := (refresh_access_token (some [("refresh_token", "R")])
          [("access_token", "T"), ("api_domain", "U")]).store } ∧
    get_orders (some [("refresh_token", "R")]) [("access_token", "T"), ("api_domain", "U")]
        { status_code := 200, text := "b" } (some [{ api_name := "Name" }])
        { status_code := 403, text := "denied" } =
      { body := .providerError fetch_orders_failed_msg "denied" 403, status := 403,
        store := (refresh_access_token (some [("refresh_token", "R")])
          [("access_token", "T"), ("api_domain", "U")]).store } ∧
    create_customer (some [("refresh_token", "R")]) [("access_token", "T"), ("api_domain", "U")]
        { status_code := 403, text := "denied" } =
      { body := .providerError create_customer_failed_msg "denied" 403, status := 403,
        store := (refresh_access_token (some [("refresh_token", "R")])
          [("access_token", "T"), ("api_domain", "U")]).store } ∧
    create_order (some [("refresh_token", "R")]) [("access_token", "T"), ("api_domain", "U")]
        { status_code := 403, text := "denied" } =
      { body := .providerError create_order_failed_msg "denied" 403, status := 403,
        store := (refresh_access_token (some [("refresh_token", "R")])
          [("access_token", "T"), ("api_domain", "U")]).store } :=
  ⟨⟨by decide, by decide, by decide, by decide⟩,
    provider_error_passthrough (some [("refresh_token", "R")])
      [("access_token", "T"), ("api_domain", "U")] { status_code := 200, text := "b" }
      (some [{ api_name := "Name" }]) { status_code := 403, text := "denied" }
      (by decide) (by decide) (by decide) (Or.inr (by decide))⟩

/-- C10 counterexample: a refresh that returns successfully (no error) yet
whose persisted `api_domain` is the empty string — the provider's response
carried the key with an empty value and the refresh checks only presence —
so the handler's api-domain-missing 401 branch is reached right after a
successful refresh. -/
theorem refresh_success_but_domain_branch_reached :
    (refresh_access_token (some [("refresh_token", "R")])
        [("access_token", "T"), ("api_domain", "")]).err = none ∧
    (get_customers (some [("refresh_token", "R")]) [("access_token", "T"), ("api_domain", "")]
        { status_code := 200, text := "" } (some [])
        { status_code := 200, text := "" }).body = .apiDomainMissing ∧
    (get_customers (some [("refresh_token", "R")]) [("access_token", "T"), ("api_domain", "")]
        { status_code := 200, text := "" } (some [])
        { status_code := 200, text := "" }).status = 401 := by
  refine ⟨rfl, ?_, ?_⟩ <;> rfl

/-- C10 (amended): if the refresh returns successfully and the provider's
`api_domain` value is non-empty, the record loaded right afterwards holds
exactly that value, so the api-domain-missing 401 branch of every resource
handler is unreachable. -/
theorem refresh_success_domain_branch_unreachable (st : TokenFile) (rd : Dict) (D : String)
    (fieldsResp : HttpResp) (fieldsData : Option (List Field)) (finalResp : HttpResp)
    (herr : (refresh_access_token st rd).err = none)
    (hD : dget rd "api_domain" = some D) (hne : D ≠ "") :
    dget (load_tokens (refresh_access_token st rd).store) "api_domain" = some D ∧
    (get_customers st rd fieldsResp fieldsData finalResp).body ≠ .apiDomainMissing ∧
    (get_orders st rd fieldsResp fieldsData finalResp).body ≠ .apiDomainMissing ∧
    (create_customer st rd finalResp).body ≠ .apiDomainMissing ∧
    (create_order st rd finalResp).body ≠ .apiDomainMissing := by
  obtain ⟨-, hst⟩ := refresh_err_none_spec st rd herr
  have hdom : dget (load_tokens (refresh_access_token st rd).store) "api_domain" = some D := by
    rw [hst]
    show dget (dset (dset (load_tokens st) "access_token" ((dget rd "access_token").getD ""))
      "api_domain" ((dget rd "api_domain").getD "")) "api_domain" = some D
    rw [hD, dget_dset_self]
    rfl
  have htr : truthy (dget (load_tokens (refresh_access_token st rd).store) "api_domain")
      = true := by
    rw [hdom]; simpa [truthy] using hne
  have hre : truthy (refresh_access_token st rd).err = false := by rw [herr]; rfl
  refine ⟨hdom, ?_, ?_, ?_, ?_⟩
  · unfold get_customers
    simp only [hre, Bool.false_eq_true, if_false, htr, Bool.not_true, if_true]
    split_ifs <;> simp
  · unfold get_orders
    simp only [hre, Bool.false_eq_true, if_false, htr, Bool.not_true, if_true]
    split_ifs <;> simp
  · unfold create_customer
    simp only [hre, Bool.false_eq_true, if_false, htr, Bool.not_true, if_true]
    split_ifs <;> simp
  · unfold create_order
    simp only [hre, Bool.false_eq_true, if_false, htr, Bool.not_true, if_true]
    split_ifs <;> simp

theorem refresh_success_domain_branch_unreachable_witness :
    ((refresh_access_token (some [("refresh_token", "R")])
        [("access_token", "T"), ("api_domain", "U")]).err = none ∧
      dget [("access_token", "T"), ("api_domain", "U")] "api_domain" = some "U" ∧
      "U" ≠ "") ∧
    dget (load_tokens (refresh_access_token (some [("refresh_token", "R")])
        [("access_token", "T"), ("api_domain", "U")]).store) "api_domain" = some "U" ∧
    (get_customers (some [("refresh_token", "R")]) [("access_token", "T"), ("api_domain", "U")]
        { status_code := 200, text := "" } (some [])
        { status_code := 200, text := "" }).body ≠ .apiDomainMissing ∧
    (get_orders (some [("refresh_token", "R")]) [("access_token", "T"), ("api_domain", "U")]
        { status_code := 200, text := "" } (some [])
        { status_code := 200, text := "" }).body ≠ .apiDomainMissing ∧
    (create_customer (some [("refresh_token", "R")]) [("access_token", "T"), ("api_domain", "U")]
        { status_code := 200, text := "" }).body ≠ .apiDomainMissing ∧
    (create_order (some [("refresh_token", "R")]) [("access_token", "T"), ("api_domain", "U")]
        { status_code := 200, text := "" }).body ≠ .apiDomainMissing :=
  ⟨⟨by decide, by decide, by decide⟩,
    refresh_success_domain_branch_unreachable (some [("refresh_token", "R")])
      [("access_token", "T"), ("api_domain", "U")] "U"
      { status_code := 200, text := "" } (some []) { status_code := 200, text := "" }
      (by decide) (by decide) (by decide)⟩

end ZohoCRM
